import Mathlib

/-! Shallow embedding of the reservation backend `reserva-espacios-backend`.

The embedding covers the reservation lifecycle code in `reservas/service.py`,
`reservas/routes.py`, `spaces/routes.py`, the serialization in
`reservas/models/reserva.py`, the Redis TTL facade in `redis_client/service.py`
and the WebSocket fan-out in `websocket/socket_manager.py`.

Modelling conventions:
* The SQLAlchemy session is modelled as an explicit `DB` value holding the
  persisted rows in insertion order; `Model.query.get` / `.filter(...).first()`
  become `List.find?` over that order, and mutation of a row object fetched by
  a query becomes an in-place update of the first matching list entry.
* The `estado` column is `db.String(30)` in `reservas/models/reserva.py`, so it
  is modelled as a plain `String` (one endpoint writes a value outside the
  documented enum, which a closed enum type could not express).
* Timestamps `created_at` / `updated_at` are database-generated audit columns
  not read by any operation; they are omitted.  `expires_at` is kept, with
  instants as integers (seconds).
* Redis holds one key `reservation:<id>` per registered hold; the store is a
  `List (String × Int)` of key/ttl pairs.  `client.expire` succeeds exactly
  when the key exists (redis semantics), which is what
  `RedisService.refresh_ttl` returns.
* A WebSocket emit that raises is modelled by the `emitOk : Bool` parameter of
  `create_reservation`: when `false`, the emit call raises after the commit,
  the generic `except` handler runs `db.session.rollback()` (a no-op for the
  already committed transaction) and returns `(None, str(e))`.
* Fresh UUIDs (`default=uuid.uuid4`) are passed in as an explicit `newId`
  argument.
-/

/-- Space row (`spaces/models/space.py` plus the `plano_id` and `name` fields
read by `spaces/routes.py` and `reservas/service.py`).  Only the columns the
reservation code reads are modelled: `id`, `name`, `plano_id`, `active`. -/
structure Space where
  id : String
  name : String
  planoId : Option String
  active : Bool
deriving Repr, DecidableEq

/-- Reserva row (`reservas/models/reserva.py`). -/
structure Reserva where
  id : String
  estado : String
  asignee : Option String
  userId : Option String
  espacioId : String
  expiresAt : Option Int
deriving Repr, DecidableEq

/-- UserProfile row (`user_profiles/models/user_profile.py`), contact fields. -/
structure UserProfile where
  userId : String
  email : Option String
  phone : Option String
  linkedin : Option String
  company : Option String
  position : Option String
deriving Repr, DecidableEq

/-- The `is_complete` predicate of `UserProfile`: `bool(self.email and
self.email.strip())` — a missing, empty or whitespace-only email is
incomplete, i.e. the email must contain a non-whitespace character. -/
def UserProfile.is_complete (p : UserProfile) : Bool :=
  match p.email with
  | none => false
  | some e => e.toList.any (fun c => !c.isWhitespace)

/-- The persistent state: PostgreSQL tables plus the Redis key space. -/
structure DB where
  spaces : List Space
  reservas : List Reserva
  profiles : List UserProfile
  store : List (String × Int)
deriving Repr, DecidableEq

/-- The `client_profile` sub-dictionary embedded by `Reserva.to_dict`. -/
structure ClientProfile where
  company : Option String
  linkedin : Option String
  email : Option String
deriving Repr, DecidableEq

/-- The dictionary produced by `Reserva.to_dict` (JSON payload of routes and
WebSocket events). -/
structure ReservaDict where
  id : String
  estado : String
  asignee : Option String
  userId : Option String
  spaceId : String
  spaceName : Option String
  expiresAt : Option Int
  clientProfile : Option ClientProfile
deriving Repr, DecidableEq

/-- `Reserva.to_dict` (`reservas/models/reserva.py`): serializes the row; for a
`RESERVED` reservation with a truthy `user_id` it embeds the owner's profile
(company, linkedin, email) under `client_profile` when a profile exists. -/
def Reserva.to_dict (db : DB) (r : Reserva) : ReservaDict :=
  let spaceName := (db.spaces.find? (fun s => s.id == r.espacioId)).map Space.name
  let clientProfile :=
    if r.estado == "RESERVED" then
      match r.userId with
      | some u =>
        if u == "" then none
        else
          match db.profiles.find? (fun p => p.userId == u) with
          | some p => some { company := p.company, linkedin := p.linkedin, email := p.email }
          | none => none
      | none => none
    else none
  { id := r.id, estado := r.estado, asignee := r.asignee, userId := r.userId,
    spaceId := r.espacioId, spaceName := spaceName, expiresAt := r.expiresAt,
    clientProfile := clientProfile }

/-- Domain events emitted through `websocket/socket_manager.py`.  Each carries
the serialized payload and the `plano_id` tag placed in the envelope. -/
inductive WsEvent where
  | reservationCreated (payload : ReservaDict) (planoId : Option String)
  | reservationUpdated (payload : ReservaDict) (planoId : Option String)
  | reservationExpired (payload : ReservaDict) (planoId : Option String)
  | reservationCancelled (payload : ReservaDict) (planoId : Option String)
  | cancellationRequested (payload : ReservaDict) (planoId : Option String)
  | spaceUpdated (spaceId : String) (planoId : Option String)
deriving Repr, DecidableEq

/-- A connected WebSocket client of the `/reservas` namespace; `authenticated`
is the tag set at handshake (`handle_connect`). -/
structure WsClient where
  sid : String
  authenticated : Bool
deriving Repr, DecidableEq

/-- `socketio.emit(..., namespace='/reservas')` without a room: the envelope is
delivered to every connected client of the namespace, authenticated or not. -/
def broadcast_to_all (clients : List WsClient) (ev : WsEvent) : List (String × WsEvent) :=
  clients.map (fun c => (c.sid, ev))

/-- Result of a `ReservaService` class method: the `(reserva, error)` pair it
returns, the database state after the call, and the events it emitted. -/
structure SvcResult where
  reserva : Option Reserva
  error : Option String
  db : DB
  events : List WsEvent
deriving Repr, DecidableEq

/-- The `plano_id = str(space.plano_id) if space and space.plano_id else None`
pattern used before every emit. -/
def plano_of_space (db : DB) (spaceId : String) : Option String :=
  match db.spaces.find? (fun s => s.id == spaceId) with
  | some s => s.planoId
  | none => none

/-- The activity test used everywhere in the source:
`estado.in_([ReservationStatus.PENDING, ReservationStatus.RESERVED])`. -/
def estado_activo (r : Reserva) : Bool :=
  r.estado == "PENDING" || r.estado == "RESERVED"

/-- The spec's invariant-I1 activity set, which additionally counts
`CANCELLATION_REQUESTED` as holding the space. -/
def estado_activo3 (r : Reserva) : Bool :=
  r.estado == "PENDING" || r.estado == "RESERVED" || r.estado == "CANCELLATION_REQUESTED"

/-- Number of reservations of a space that are active in the source's sense. -/
def active_count (db : DB) (spaceId : String) : Nat :=
  (db.reservas.filter (fun r => r.espacioId == spaceId && estado_activo r)).length

/-- Number of reservations of a space that are active in the spec's (three
state) sense. -/
def active3_count (db : DB) (spaceId : String) : Nat :=
  (db.reservas.filter (fun r => r.espacioId == spaceId && estado_activo3 r)).length

/-- The five states named by the spec's state machine. -/
def valid_estado (e : String) : Bool :=
  e == "PENDING" || e == "RESERVED" || e == "EXPIRED" || e == "CANCELLED" ||
    e == "CANCELLATION_REQUESTED"

/-- Update the first list entry satisfying `p` (mutation of the row object
returned by `.first()` / `next(...)`). -/
def modifyFirst (p : α → Bool) (f : α → α) : List α → List α
  | [] => []
  | a :: l => if p a then f a :: l else a :: modifyFirst p f l

/-- Delete the first list entry satisfying `p` (`db.session.delete` of the row
returned by `.first()`). -/
def removeFirst (p : α → Bool) : List α → List α
  | [] => []
  | a :: l => if p a then l else a :: removeFirst p l

/-- Placeholder for `str(e)` of the exception raised by a failing emit. -/
def broadcast_error_msg : String := "WebSocket emit failed"

/-- `ReservaService.create_reservation` (`reservas/service.py`): checks the
space exists, refuses when a `PENDING`-or-`RESERVED` reservation exists for it
(with distinct messages), otherwise inserts a `PENDING` row with
`expires_at=None`, commits, and emits `reservation_created`.  No Redis entry is
written.  `emitOk = false` models the emit raising after the commit: the
exception is caught, the post-commit rollback keeps the inserted row, and the
method returns `(None, str(e))`. -/
def create_reservation (db : DB) (spaceId : String) (userId : Option String)
    (asignee : Option String) (newId : String) (emitOk : Bool) : SvcResult :=
  match db.spaces.find? (fun s => s.id == spaceId) with
  | none => { reserva := none, error := some "Espacio no encontrado", db := db, events := [] }
  | some space =>
    match db.reservas.find? (fun r => r.espacioId == spaceId && estado_activo r) with
    | some existing =>
      if existing.estado == "PENDING" then
        { reserva := none,
          error := some "El espacio ya tiene una reserva pendiente de confirmación",
          db := db, events := [] }
      else
        { reserva := none, error := some "El espacio ya está reservado",
          db := db, events := [] }
    | none =>
      let reserva : Reserva :=
        { id := newId, estado := "PENDING", asignee := asignee, userId := userId,
          espacioId := spaceId, expiresAt := none }
      let committed : DB := { db with reservas := db.reservas ++ [reserva] }
      if emitOk then
        { reserva := some reserva, error := none, db := committed,
          events := [.reservationCreated (Reserva.to_dict committed reserva) space.planoId] }
      else
        { reserva := none, error := some broadcast_error_msg, db := committed, events := [] }

/-- `ReservaService.process_expired_reservation` (`reservas/service.py`): the
Redis-lapse callback.  Missing or non-`PENDING` reservations are left alone
with no emit; a still-`PENDING` reservation becomes `EXPIRED` and
`reservation_expired` is emitted after the commit. -/
def process_expired_reservation (db : DB) (reservationId : String) : DB × List WsEvent :=
  match db.reservas.find? (fun r => r.id == reservationId) with
  | none => (db, [])
  | some r =>
    if r.estado != "PENDING" then (db, [])
    else
      let r' := { r with estado := "EXPIRED" }
      let committed := { db with
        reservas := modifyFirst (fun x => x.id == reservationId)
          (fun x => { x with estado := "EXPIRED" }) db.reservas }
      (committed,
       [.reservationExpired (Reserva.to_dict committed r') (plano_of_space db r.espacioId)])

/-- Default TTL for pending holds (`PENDING_TTL_SECONDS = 30`). -/
def PENDING_TTL_SECONDS : Int := 30

/-- `RedisService._get_key`: keys are prefixed with `reservation:`. -/
def reservation_key (reservationId : String) : String :=
  "reservation:" ++ reservationId

/-- Whether the Redis key exists; `client.expire` returns true exactly in this
case. -/
def store_has (store : List (String × Int)) (key : String) : Bool :=
  store.any (fun kv => kv.1 == key)

/-- Overwrite the TTL of an existing Redis key (`client.expire`). -/
def store_set_ttl (store : List (String × Int)) (key : String) (ttl : Int) :
    List (String × Int) :=
  store.map (fun kv => if kv.1 == key then (key, ttl) else kv)

/-- The `ttl = ttl_seconds or PENDING_TTL_SECONDS` computation (Python `or`:
`None` and `0` both fall back to the default). -/
def refresh_ttl_value (ttlSeconds : Option Int) : Int :=
  match ttlSeconds with
  | none => PENDING_TTL_SECONDS
  | some t => if t == 0 then PENDING_TTL_SECONDS else t

/-- `ReservaService.refresh_reservation_ttl` (`reservas/service.py`): refuses
non-`PENDING` reservations; computes `ttl = ttl_seconds or 30`; calls
`RedisService.refresh_ttl` (redis `EXPIRE`, true only when the key exists) and
fails without touching the database when it returns false; otherwise persists
`expires_at = now + ttl` and emits `reservation_updated`. -/
def refresh_reservation_ttl (db : DB) (reservationId : String)
    (ttlSeconds : Option Int) (now : Int) : SvcResult :=
  match db.reservas.find? (fun r => r.id == reservationId) with
  | none => { reserva := none, error := some "Reserva no encontrada", db := db, events := [] }
  | some r =>
    if r.estado != "PENDING" then
      { reserva := none, error := some "Solo se puede renovar TTL de reservas pendientes",
        db := db, events := [] }
    else
      let ttl : Int := refresh_ttl_value ttlSeconds
      let key := reservation_key reservationId
      if store_has db.store key then
        let r' := { r with expiresAt := some (now + ttl) }
        let committed := { db with
          store := store_set_ttl db.store key ttl,
          reservas := modifyFirst (fun x => x.id == reservationId)
            (fun x => { x with expiresAt := some (now + ttl) }) db.reservas }
        { reserva := some r', error := none, db := committed,
          events := [.reservationUpdated (Reserva.to_dict committed r')
            (plano_of_space db r.espacioId)] }
      else
        { reserva := none, error := some "No se pudo renovar el TTL", db := db, events := [] }

/-- Modelled from the spec: `ReservaService.request_cancellation` is called by
`POST /api/reservas/<id>/solicitar-cancelacion` (`reservas/routes.py`) but the
method is not defined in `reservas/service.py` in this tree, so its body is
taken from spec §4.1: fail `Forbidden` when the requester is not the owner;
`PENDING` → `CANCELLED` emitting `reservation_cancelled`; `RESERVED` →
`CANCELLATION_REQUESTED` emitting `cancellation_requested`; any other state
fails `InvalidState`. -/
def request_cancellation (db : DB) (reservationId : String) (requesterUserId : String) :
    SvcResult :=
  match db.reservas.find? (fun r => r.id == reservationId) with
  | none => { reserva := none, error := some "Reserva no encontrada", db := db, events := [] }
  | some r =>
    if r.userId != some requesterUserId then
      { reserva := none, error := some "Forbidden", db := db, events := [] }
    else if r.estado == "PENDING" then
      let r' := { r with estado := "CANCELLED" }
      let committed := { db with
        reservas := modifyFirst (fun x => x.id == reservationId)
          (fun x => { x with estado := "CANCELLED" }) db.reservas }
      { reserva := some r', error := none, db := committed,
        events := [.reservationCancelled (Reserva.to_dict committed r')
          (plano_of_space db r.espacioId)] }
    else if r.estado == "RESERVED" then
      let r' := { r with estado := "CANCELLATION_REQUESTED" }
      let committed := { db with
        reservas := modifyFirst (fun x => x.id == reservationId)
          (fun x => { x with estado := "CANCELLATION_REQUESTED" }) db.reservas }
      { reserva := some r', error := none, db := committed,
        events := [.cancellationRequested (Reserva.to_dict committed r')
          (plano_of_space db r.espacioId)] }
    else
      { reserva := none, error := some "InvalidState", db := db, events := [] }

/-- Result of an HTTP route handler: status code, error text, serialized body,
resulting state, emitted events. -/
structure RouteResult where
  status : Nat
  error : Option String
  body : Option ReservaDict
  db : DB
  events : List WsEvent
deriving Repr, DecidableEq

/-- `GET /api/reservas/<id>` (`reservas/routes.py`): no auth decorator — the
handler takes no identity and serves `to_dict` to anyone. -/
def get_reservation (db : DB) (reservationId : String) : RouteResult :=
  match db.reservas.find? (fun r => r.id == reservationId) with
  | none =>
    { status := 404, error := some "Reserva no encontrada", body := none, db := db, events := [] }
  | some r =>
    { status := 200, error := none, body := some (Reserva.to_dict db r), db := db, events := [] }

/-- The identity extracted by `get_current_user` from the verified token. -/
structure AuthUser where
  id : Option String
  name : Option String
deriving Repr, DecidableEq

/-- `POST /api/reservas` (`reservas/routes.py`): requires `space_id`, an
identified user and a complete profile, then delegates to
`ReservaService.create_reservation`; service errors map to 400, success to
201.  Note the handler never reads the space's `active` flag. -/
def api_create_reservation (db : DB) (currentUser : Option AuthUser)
    (bodySpaceId : Option String) (bodyAsignee : Option String)
    (newId : String) (emitOk : Bool) : RouteResult :=
  match bodySpaceId with
  | none =>
    { status := 400, error := some "space_id es requerido", body := none, db := db, events := [] }
  | some spaceId =>
    let userId := match currentUser with
      | some u => u.id
      | none => none
    match userId with
    | none =>
      { status := 401, error := some "Usuario no identificado", body := none, db := db,
        events := [] }
    | some uid =>
      if uid == "" then
        { status := 401, error := some "Usuario no identificado", body := none, db := db,
          events := [] }
      else
        match db.profiles.find? (fun p => p.userId == uid) with
        | none =>
          { status := 403, error := some "Debes completar tu perfil antes de hacer una reserva",
            body := none, db := db, events := [] }
        | some profile =>
          if !profile.is_complete then
            { status := 403,
              error := some "Debes completar tu perfil antes de hacer una reserva",
              body := none, db := db, events := [] }
          else
            let userName := match currentUser with
              | some u => u.name
              | none => none
            let asignee := match bodyAsignee with
              | some a => if a == "" then userName else some a
              | none => userName
            let res := create_reservation db spaceId (some uid) asignee newId emitOk
            match res.error with
            | some e =>
              { status := 400, error := some e, body := none, db := res.db, events := res.events }
            | none =>
              { status := 201, error := none,
                body := res.reserva.map (Reserva.to_dict res.db), db := res.db,
                events := res.events }

/-- `POST /spaces/<space_id>/reservar` (`spaces/routes.py`): unlike
`POST /api/reservas`, this handler rejects a blocked space (`active = False`)
with a 400 before ever calling the service. -/
def reservar_space (db : DB) (spaceId : String) (currentUser : Option AuthUser)
    (bodyUserId : Option String) (bodyAsignee : Option String)
    (newId : String) (emitOk : Bool) : RouteResult :=
  match db.spaces.find? (fun s => s.id == spaceId) with
  | none =>
    { status := 404, error := some "Espacio no encontrado", body := none, db := db, events := [] }
  | some space =>
    if !space.active then
      { status := 400, error := some "El stand está bloqueado", body := none, db := db,
        events := [] }
    else
      let userId := match currentUser with
        | some u => u.id
        | none => bodyUserId
      let asignee := match currentUser with
        | none => none
        | some u =>
          match bodyAsignee with
          | some a => if a == "" then u.name else some a
          | none => u.name
      let res := create_reservation db spaceId userId asignee newId emitOk
      match res.error with
      | some e =>
        { status := 400, error := some e, body := none, db := res.db, events := res.events }
      | none =>
        { status := 201, error := none, body := res.reserva.map (Reserva.to_dict res.db),
          db := res.db, events := res.events }

/-- Set the `active` flag of a space (`space.active = ...`). -/
def set_space_active (db : DB) (spaceId : String) (b : Bool) : List Space :=
  db.spaces.map (fun s => if s.id == spaceId then { s with active := b } else s)

/-- The `for reserva in space.reservations: if estado in [PENDING, RESERVED]:
estado = "CANCELLED"` loop of the BLOCKED / AVAILABLE branches. -/
def cancel_active_reservations (reservas : List Reserva) (spaceId : String) : List Reserva :=
  reservas.map (fun r =>
    if r.espacioId == spaceId && estado_activo r then { r with estado := "CANCELLED" } else r)

/-- The `status` branch of `PATCH /spaces/<space_id>` (`update_space` in
`spaces/routes.py`).  The plain field updates (name, price, geometry, zone)
never touch reservations and are omitted.  `BLOCKED` / `AVAILABLE` cancel all
`PENDING`/`RESERVED` reservations of the space; `RESERVED` confirms the first
pending one or, failing that and with no reserved one, inserts a fresh
`RESERVED` row; `PENDING` inserts a fresh `PENDING` row unless a
`PENDING`-or-`RESERVED` one exists; any other value changes nothing.  The
handler always commits and emits `space_updated`. -/
def update_space_status (db : DB) (spaceId : String) (status : String) (newId : String) :
    RouteResult :=
  match db.spaces.find? (fun s => s.id == spaceId) with
  | none =>
    { status := 404, error := some "Espacio no encontrado", body := none, db := db, events := [] }
  | some space =>
    let db' : DB :=
      if status == "BLOCKED" then
        { db with spaces := set_space_active db spaceId false,
                  reservas := cancel_active_reservations db.reservas spaceId }
      else if status == "AVAILABLE" then
        { db with spaces := set_space_active db spaceId true,
                  reservas := cancel_active_reservations db.reservas spaceId }
      else if status == "RESERVED" then
        let base : DB := { db with spaces := set_space_active db spaceId true }
        match db.reservas.find? (fun r => r.espacioId == spaceId && r.estado == "PENDING") with
        | some _ =>
          let confirmed :=
            modifyFirst (fun r => r.espacioId == spaceId && r.estado == "PENDING")
              (fun r => { r with estado := "RESERVED" }) db.reservas
          { base with reservas := confirmed }
        | none =>
          match db.reservas.find? (fun r => r.espacioId == spaceId && r.estado == "RESERVED") with
          | some _ => base
          | none =>
            { base with reservas := db.reservas ++
                [{ id := newId, estado := "RESERVED", asignee := some "Admin",
                   userId := none, espacioId := spaceId, expiresAt := none }] }
      else if status == "PENDING" then
        let base : DB := { db with spaces := set_space_active db spaceId true }
        match db.reservas.find? (fun r => r.espacioId == spaceId && estado_activo r) with
        | some _ => base
        | none =>
          { base with reservas := db.reservas ++
              [{ id := newId, estado := "PENDING", asignee := some "Admin",
                 userId := none, espacioId := spaceId, expiresAt := none }] }
      else db
    { status := 200, error := none, body := none, db := db',
      events := [.spaceUpdated spaceId space.planoId] }

/-- `DELETE /spaces/<space_id>/reserva` (`cancelar_reserva` in
`spaces/routes.py`): guarded only by `require_auth`; the authenticated
requester is never read.  The first reservation row of the space — whatever
its state — is serialized, deleted outright, and `reservation_cancelled` is
emitted with the serialized data. -/
def cancelar_reserva (db : DB) (spaceId : String) (requesterUserId : String) : RouteResult :=
  match db.reservas.find? (fun r => r.espacioId == spaceId) with
  | none =>
    { status := 404, error := some "No hay reserva para este stand", body := none, db := db,
      events := [] }
  | some r =>
    let payload := Reserva.to_dict db r
    let planoId := plano_of_space db spaceId
    let committed := { db with reservas := removeFirst (fun x => x.espacioId == spaceId) db.reservas }
    { status := 200, error := none, body := none, db := committed,
      events := [.reservationCancelled payload planoId] }

/-- `PATCH /spaces/<space_id>/reserva/confirmar` (`confirmar_reserva` in
`spaces/routes.py`): takes the first reservation row of the space — whatever
its state — and writes the literal string `"confirmada"` into `estado`. -/
def confirmar_reserva (db : DB) (spaceId : String) : RouteResult :=
  match db.reservas.find? (fun r => r.espacioId == spaceId) with
  | none =>
    { status := 404, error := some "No hay reserva para este stand", body := none, db := db,
      events := [] }
  | some r =>
    let committed := { db with
      reservas := modifyFirst (fun x => x.espacioId == spaceId)
        (fun x => { x with estado := "confirmada" }) db.reservas }
    { status := 200, error := none,
      body := some (Reserva.to_dict committed { r with estado := "confirmada" }),
      db := committed, events := [] }

/-- Observation: the `estado` of the (first) reservation with a given id. -/
def estado_of (db : DB) (reservationId : String) : Option String :=
  (db.reservas.find? (fun r => r.id == reservationId)).map Reserva.estado

/-- Observation: the `expires_at` of the (first) reservation with a given id. -/
def expires_of (db : DB) (reservationId : String) : Option (Option Int) :=
  (db.reservas.find? (fun r => r.id == reservationId)).map Reserva.expiresAt

/-- Example store: one space whose only reservation is in state
`CANCELLATION_REQUESTED`. -/
def dbCancelReq : DB :=
  { spaces := [{ id := "s1", name := "Stand 1", planoId := some "p1", active := true }],
    reservas := [{ id := "r1", estado := "CANCELLATION_REQUESTED", asignee := none,
                   userId := some "u1", espacioId := "s1", expiresAt := none }],
    profiles := [], store := [] }

/-- Example store: one space with no reservations at all. -/
def dbEmptySpace : DB :=
  { spaces := [{ id := "s1", name := "Stand 1", planoId := some "p1", active := true }],
    reservas := [], profiles := [], store := [] }

/-- Example store: one space whose only reservation is already `CANCELLED`. -/
def dbCancelled : DB :=
  { spaces := [{ id := "s1", name := "Stand 1", planoId := some "p1", active := true }],
    reservas := [{ id := "r1", estado := "CANCELLED", asignee := none,
                   userId := none, espacioId := "s1", expiresAt := none }],
    profiles := [], store := [] }

/-- Example store: one space with a `PENDING` reservation and an empty Redis
key space (the situation `create_reservation` itself produces, since creation
registers no TTL entry). -/
def dbPendingNoKey : DB :=
  { spaces := [{ id := "s1", name := "Stand 1", planoId := some "p1", active := true }],
    reservas := [{ id := "r1", estado := "PENDING", asignee := some "Alice",
                   userId := some "u1", espacioId := "s1", expiresAt := none }],
    profiles := [], store := [] }

/-- Example store: a `PENDING` reservation whose Redis hold entry exists. -/
def dbPendingWithKey : DB :=
  { spaces := [{ id := "s1", name := "Stand 1", planoId := some "p1", active := true }],
    reservas := [{ id := "r1", estado := "PENDING", asignee := some "Alice",
                   userId := some "u1", espacioId := "s1", expiresAt := none }],
    profiles := [], store := [("reservation:r1", 30)] }

/-- Example store: a blocked space (`active = False`) with no reservations and
a complete profile for user `u1`. -/
def dbBlockedSpace : DB :=
  { spaces := [{ id := "s1", name := "Stand 1", planoId := some "p1", active := false }],
    reservas := [],
    profiles := [{ userId := "u1", email := some "u1@mail.com", phone := none,
                   linkedin := none, company := some "Acme", position := none }],
    store := [] }

/-- Example store: a `RESERVED` reservation owned by `u1`, whose profile holds
company, linkedin and email. -/
def dbReservedWithProfile : DB :=
  { spaces := [{ id := "s1", name := "Stand 1", planoId := some "p1", active := true }],
    reservas := [{ id := "r1", estado := "RESERVED", asignee := some "Alice",
                   userId := some "u1", espacioId := "s1", expiresAt := none }],
    profiles := [{ userId := "u1", email := some "u1@mail.com", phone := none,
                   linkedin := some "linkedin.com/in/u1", company := some "Acme",
                   position := none }],
    store := [] }

/-- Example store: a `RESERVED` reservation owned by `u1` (for the
cancellation-request scenarios). -/
def dbReservedOwner : DB :=
  { spaces := [{ id := "s1", name := "Stand 1", planoId := some "p1", active := true }],
    reservas := [{ id := "r1", estado := "RESERVED", asignee := some "Alice",
                   userId := some "u1", espacioId := "s1", expiresAt := none }],
    profiles := [], store := [] }

/-- Example store: an `EXPIRED` reservation on a space (for the delete-route
scenario). -/
def dbExpired : DB :=
  { spaces := [{ id := "s1", name := "Stand 1", planoId := some "p1", active := true }],
    reservas := [{ id := "r1", estado := "EXPIRED", asignee := some "Alice",
                   userId := some "u1", espacioId := "s1", expiresAt := none }],
    profiles := [], store := [] }

/-- A predicate with no hit in `find?` filters to the empty list. -/
theorem filter_eq_nil_of_find?_eq_none {α : Type} {p : α → Bool} {l : List α}
    (h : l.find? p = none) : l.filter p = [] := by
  induction l with
  | nil => rfl
  | cons a l ih =>
    cases hpa : p a with
    | true => rw [List.find?_cons_of_pos _ hpa] at h; exact absurd h (by simp)
    | false =>
      rw [List.find?_cons_of_neg _ (by simp [hpa])] at h
      rw [List.filter_cons_of_neg (by simp [hpa])]
      exact ih h

/-- Mapping a function that either fixes an element or pushes it outside `p`
cannot increase the number of `p`-elements. -/
theorem length_filter_map_le {α : Type} (f : α → α) (p : α → Bool)
    (h : ∀ a, f a = a ∨ p (f a) = false) (l : List α) :
    ((l.map f).filter p).length ≤ (l.filter p).length := by
  induction l with
  | nil => exact Nat.le_refl 0
  | cons a l ih =>
    rw [List.map_cons]
    rcases h a with ha | ha
    · rw [ha]
      cases hpa : p a with
      | false =>
        rw [List.filter_cons_of_neg (by simp [hpa]),
          List.filter_cons_of_neg (by simp [hpa])]
        exact ih
      | true =>
        rw [List.filter_cons_of_pos (by simp [hpa]),
          List.filter_cons_of_pos (by simp [hpa])]
        exact Nat.succ_le_succ ih
    · rw [List.filter_cons_of_neg (by simp [ha])]
      cases hpa : p a with
      | false =>
        rw [List.filter_cons_of_neg (by simp [hpa])]
        exact ih
      | true =>
        rw [List.filter_cons_of_pos (by simp [hpa])]
        exact Nat.le_succ_of_le ih

/-- Updating the first `q`-element with a `p`-status-preserving function keeps
the number of `p`-elements. -/
theorem length_filter_modifyFirst_eq {α : Type} (q p : α → Bool) (f : α → α)
    (h : ∀ a, q a = true → p (f a) = p a) (l : List α) :
    ((modifyFirst q f l).filter p).length = (l.filter p).length := by
  induction l with
  | nil => rfl
  | cons a l ih =>
    cases hqa : q a with
    | true =>
      rw [modifyFirst, if_pos hqa]
      have hpf := h a hqa
      cases hpa : p a with
      | false =>
        rw [List.filter_cons_of_neg (by simp [hpf, hpa]),
          List.filter_cons_of_neg (by simp [hpa])]
      | true =>
        rw [List.filter_cons_of_pos (by simp [hpf, hpa]),
          List.filter_cons_of_pos (by simp [hpa]), List.length_cons, List.length_cons]
    | false =>
      rw [modifyFirst, if_neg (by simp [hqa])]
      cases hpa : p a with
      | false =>
        rw [List.filter_cons_of_neg (by simp [hpa]),
          List.filter_cons_of_neg (by simp [hpa])]
        exact ih
      | true =>
        rw [List.filter_cons_of_pos (by simp [hpa]),
          List.filter_cons_of_pos (by simp [hpa])]
        rw [List.length_cons, List.length_cons, ih]

/-- Appending one element adds its `p`-indicator to the filtered length. -/
theorem length_filter_append_one {α : Type} (p : α → Bool) (l : List α) (a : α) :
    ((l ++ [a]).filter p).length = (l.filter p).length + (if p a then 1 else 0) := by
  rw [List.filter_append]
  cases hpa : p a with
  | true => rw [List.filter_cons_of_pos hpa]; simp
  | false => rw [List.filter_cons_of_neg (by simp [hpa])]; simp

/-- `modifyFirst` transforms the hit returned by `find?` and keeps it findable
when `f` preserves the predicate. -/
theorem find?_modifyFirst {α : Type} {p : α → Bool} {f : α → α}
    (hpf : ∀ a, p a = true → p (f a) = true) :
    ∀ {l : List α} {a : α}, l.find? p = some a →
      (modifyFirst p f l).find? p = some (f a) := by
  intro l
  induction l with
  | nil => intro a h; exact absurd h (by simp)
  | cons b l ih =>
    intro a h
    cases hpb : p b with
    | true =>
      rw [List.find?_cons_of_pos _ hpb] at h
      cases h
      rw [modifyFirst, if_pos hpb]
      exact List.find?_cons_of_pos _ (hpf b hpb)
    | false =>
      rw [List.find?_cons_of_neg _ (by simp [hpb])] at h
      rw [modifyFirst, if_neg (by simp [hpb])]
      rw [List.find?_cons_of_neg _ (by simp [hpb])]
      exact ih h

/-- Every element surviving `removeFirst` was in the original list. -/
theorem mem_of_mem_removeFirst {α : Type} {p : α → Bool} :
    ∀ {l : List α} {x : α}, x ∈ removeFirst p l → x ∈ l := by
  intro l
  induction l with
  | nil => intro x h; exact absurd h (by simp [removeFirst])
  | cons a l ih =>
    intro x h
    cases hpa : p a with
    | true =>
      rw [removeFirst, if_pos hpa] at h
      exact List.mem_cons_of_mem a h
    | false =>
      rw [removeFirst, if_neg (by simp [hpa])] at h
      rcases List.mem_cons.mp h with rfl | hx
      · exact List.mem_cons_self x l
      · exact List.mem_cons_of_mem a (ih hx)

/-- `removeFirst` removes exactly one element when `find?` hits. -/
theorem length_removeFirst_of_find? {α : Type} {p : α → Bool} :
    ∀ {l : List α} {a : α}, l.find? p = some a →
      (removeFirst p l).length + 1 = l.length := by
  intro l
  induction l with
  | nil => intro a h; exact absurd h (by simp)
  | cons b l ih =>
    intro a h
    cases hpb : p b with
    | true => rw [removeFirst, if_pos hpb]; rfl
    | false =>
      rw [List.find?_cons_of_neg _ (by simp [hpb])] at h
      rw [removeFirst, if_neg (by simp [hpb]), List.length_cons, List.length_cons, ih h]

/-- C1 (counterexample): the claim that `create_reservation` refuses while a
reservation in any of `PENDING`/`RESERVED`/`CANCELLATION_REQUESTED` exists is
false — with one `CANCELLATION_REQUESTED` reservation on space `s1` the call
succeeds and leaves two reservations in the spec's active set. -/
theorem create_ignores_cancellation_requested :
    active3_count dbCancelReq "s1" = 1 ∧
    (create_reservation dbCancelReq "s1" (some "u2") none "r2" true).error = none ∧
    (create_reservation dbCancelReq "s1" (some "u2") none "r2" true).reserva.isSome = true ∧
    active3_count (create_reservation dbCancelReq "s1" (some "u2") none "r2" true).db "s1" = 2 := by
  decide

/-- C3 (code evaluated at the failing input): `PATCH
/spaces/<space_id>/reserva/confirmar` takes a reservation already in the
terminal state `CANCELLED` and overwrites its `estado` with the literal
`"confirmada"`, which is outside the five-state enum. -/
theorem confirmar_reserva_writes_confirmada :
    (dbCancelled.reservas.map Reserva.estado = ["CANCELLED"]) ∧
    (confirmar_reserva dbCancelled "s1").status = 200 ∧
    ((confirmar_reserva dbCancelled "s1").db.reservas.map Reserva.estado = ["confirmada"]) ∧
    valid_estado "confirmada" = false ∧ valid_estado "CANCELLED" = true := by
  decide

/-- C6 (counterexample): on a `PENDING` reservation with no Redis hold entry
(the state creation itself produces), `refresh_reservation_ttl` does not set
`expires_at` or emit anything — it fails with the TTL error, refuting the
claim that a `PENDING` reservation is always refreshed. -/
theorem refresh_ttl_fails_without_store_entry :
    estado_of dbPendingNoKey "r1" = some "PENDING" ∧
    refresh_reservation_ttl dbPendingNoKey "r1" (some 30) 1000 =
      { reserva := none, error := some "No se pudo renovar el TTL",
        db := dbPendingNoKey, events := [] } := by
  decide

/-- C7 (counterexample): a broadcast failure in `create_reservation` is not
swallowed — the generic handler reports it to the caller as the command error
(while the committed insert survives). -/
theorem broadcast_failure_reported_to_caller :
    (create_reservation dbEmptySpace "s1" (some "u1") none "r1" false).error =
      some broadcast_error_msg ∧
    (create_reservation dbEmptySpace "s1" (some "u1") none "r1" false).reserva = none ∧
    (create_reservation dbEmptySpace "s1" (some "u1") none "r1" false).db.reservas.map
      Reserva.estado = ["PENDING"] := by
  decide

/-- Cancelling the active reservations of one space never increases any
space's active count. -/
theorem active_count_cancel_le (reservas : List Reserva) (spaceId sp : String) :
    ((cancel_active_reservations reservas spaceId).filter
        (fun r => r.espacioId == sp && estado_activo r)).length ≤
      (reservas.filter (fun r => r.espacioId == sp && estado_activo r)).length := by
  unfold cancel_active_reservations
  apply length_filter_map_le
  intro r
  by_cases hcond : (r.espacioId == spaceId && estado_activo r) = true
  · right; simp only [if_pos hcond]; simp [estado_activo]
  · left; simp only [if_neg hcond]

/-- Confirming the first pending reservation of a space keeps every space's
active count. -/
theorem active_count_confirm_pending_eq (reservas : List Reserva) (spaceId sp : String) :
    ((modifyFirst (fun r => r.espacioId == spaceId && r.estado == "PENDING")
          (fun r => { r with estado := "RESERVED" }) reservas).filter
        (fun r => r.espacioId == sp && estado_activo r)).length =
      (reservas.filter (fun r => r.espacioId == sp && estado_activo r)).length := by
  apply length_filter_modifyFirst_eq
  intro r hr
  have h2 : r.estado = "PENDING" := eq_of_beq ((Bool.and_eq_true _ _).mp hr).2
  simp [estado_activo, h2]

/-- With neither a pending nor a reserved reservation on the space, its active
set is empty. -/
theorem filter_active_nil_of_none (reservas : List Reserva) (spaceId : String)
    (hpend : reservas.find? (fun r => r.espacioId == spaceId && r.estado == "PENDING") = none)
    (hres : reservas.find? (fun r => r.espacioId == spaceId && r.estado == "RESERVED") = none) :
    reservas.filter (fun r => r.espacioId == spaceId && estado_activo r) = [] := by
  rw [List.filter_eq_nil_iff]
  intro r hr
  have h1 := List.find?_eq_none.mp hpend r hr
  have h2 := List.find?_eq_none.mp hres r hr
  intro hcontra
  rcases (Bool.and_eq_true _ _).mp hcontra with ⟨hesp, hact⟩
  simp only [estado_activo, Bool.or_eq_true] at hact
  rcases hact with hPe | hRe
  · exact h1 (by simp [hesp, hPe])
  · exact h2 (by simp [hesp, hRe])

/-- C1 (amended): invariant I1 holds for the two-state active set actually
checked by the code, `{PENDING, RESERVED}`: both `create_reservation` and
every `status` branch of the space-update endpoint preserve "at most one
PENDING-or-RESERVED reservation per space", and `create_reservation` refuses
(error, state unchanged) whenever such a reservation already exists.  A
reservation in `CANCELLATION_REQUESTED` does not block creation (see the
counterexample). -/
theorem single_active_hold_pending_reserved
    (db : DB) (spaceId : String) (userId asignee : Option String) (newId : String)
    (emitOk : Bool) (status : String)
    (hinv : ∀ sp, active_count db sp ≤ 1) :
    (∀ sp, active_count (create_reservation db spaceId userId asignee newId emitOk).db sp ≤ 1) ∧
    (∀ sp, active_count (update_space_status db spaceId status newId).db sp ≤ 1) ∧
    (∀ e, db.reservas.find? (fun r => r.espacioId == spaceId && estado_activo r) = some e →
      (create_reservation db spaceId userId asignee newId emitOk).db = db ∧
      (create_reservation db spaceId userId asignee newId emitOk).error.isSome = true) := by
  refine ⟨?_, ?_, ?_⟩
  · intro sp
    cases hspace : db.spaces.find? (fun s => s.id == spaceId) with
    | none => simpa [create_reservation, hspace] using hinv sp
    | some space =>
      cases hex : db.reservas.find? (fun r => r.espacioId == spaceId && estado_activo r) with
      | some e =>
        cases hpe : e.estado == "PENDING" <;>
          simpa [create_reservation, hspace, hex, hpe] using hinv sp
      | none =>
        have hc := hinv sp
        simp only [active_count] at hc ⊢
        have hcommit :
            (create_reservation db spaceId userId asignee newId emitOk).db.reservas =
              db.reservas ++
                [{ id := newId, estado := "PENDING", asignee := asignee, userId := userId,
                   espacioId := spaceId, expiresAt := none }] := by
          cases emitOk <;> simp [create_reservation, hspace, hex]
        rw [hcommit, length_filter_append_one]
        by_cases hsp : sp = spaceId
        · subst hsp
          rw [filter_eq_nil_of_find?_eq_none hex]
          simp [estado_activo]
        · have hne : ((spaceId : String) == sp) = false :=
            beq_eq_false_iff_ne.mpr (fun h => hsp h.symm)
          simpa [hne] using hc
  · intro sp
    have hc := hinv sp
    simp only [active_count] at hc ⊢
    cases hspace : db.spaces.find? (fun s => s.id == spaceId) with
    | none => simpa [update_space_status, hspace] using hc
    | some space =>
      simp only [update_space_status, hspace]
      cases hb : status == "BLOCKED" with
      | true =>
        simp [hb]
        exact le_trans (active_count_cancel_le db.reservas spaceId sp) hc
      | false =>
        cases hav : status == "AVAILABLE" with
        | true =>
          simp [hb, hav]
          exact le_trans (active_count_cancel_le db.reservas spaceId sp) hc
        | false =>
          cases hr : status == "RESERVED" with
          | true =>
            simp only [hb, hav, hr, Bool.false_eq_true, if_false, if_true]
            cases hpend : db.reservas.find?
                (fun r => r.espacioId == spaceId && r.estado == "PENDING") with
            | some p =>
              simp only [hpend]
              rw [active_count_confirm_pending_eq]
              exact hc
            | none =>
              simp only [hpend]
              cases hres : db.reservas.find?
                  (fun r => r.espacioId == spaceId && r.estado == "RESERVED") with
              | some q => simpa [hres] using hc
              | none =>
                simp only [hres]
                rw [length_filter_append_one]
                by_cases hsp : sp = spaceId
                · subst hsp
                  rw [filter_active_nil_of_none db.reservas sp hpend hres]
                  simp [estado_activo]
                · have hne : ((spaceId : String) == sp) = false :=
                    beq_eq_false_iff_ne.mpr (fun h => hsp h.symm)
                  simpa [hne] using hc
          | false =>
            cases hp : status == "PENDING" with
            | true =>
              simp only [hb, hav, hr, hp, Bool.false_eq_true, if_false, if_true]
              cases hex : db.reservas.find?
                  (fun r => r.espacioId == spaceId && estado_activo r) with
              | some e => simpa [hex] using hc
              | none =>
                simp only [hex]
                rw [length_filter_append_one]
                by_cases hsp : sp = spaceId
                · subst hsp
                  rw [filter_eq_nil_of_find?_eq_none hex]
                  simp [estado_activo]
                · have hne : ((spaceId : String) == sp) = false :=
                    beq_eq_false_iff_ne.mpr (fun h => hsp h.symm)
                  simpa [hne] using hc
            | false =>
              simpa [hb, hav, hr, hp] using hc
  · intro e hex
    cases hspace : db.spaces.find? (fun s => s.id == spaceId) with
    | none => simp [create_reservation, hspace]
    | some space =>
      cases hpe : e.estado == "PENDING" <;>
        simp [create_reservation, hspace, hex, hpe]

/-- C1 (witness): the amended invariant instantiated on a concrete store. -/
theorem single_active_hold_pending_reserved_witness :
    active_count (create_reservation dbEmptySpace "s1" (some "u1") none "r1" true).db "s1" ≤ 1 :=
  (single_active_hold_pending_reserved dbEmptySpace "s1" (some "u1") none "r1" true "PENDING"
    (fun _ => Nat.zero_le 1)).1 "s1"

/-- C2: `RequestCancellation` on an existing reservation — a requester other
than the owner gets `Forbidden` with nothing changed; a `PENDING` reservation
is cancelled directly emitting `reservation_cancelled`; a `RESERVED` one moves
to `CANCELLATION_REQUESTED` emitting `cancellation_requested`; every other
state fails `InvalidState` with nothing changed. -/
theorem request_cancellation_spec_behavior
    (db : DB) (rid uid : String) (r : Reserva)
    (hfind : db.reservas.find? (fun x => x.id == rid) = some r) :
    (r.userId ≠ some uid →
      request_cancellation db rid uid =
        { reserva := none, error := some "Forbidden", db := db, events := [] }) ∧
    (r.userId = some uid → r.estado = "PENDING" →
      estado_of (request_cancellation db rid uid).db rid = some "CANCELLED" ∧
      (request_cancellation db rid uid).error = none ∧
      (request_cancellation db rid uid).events =
        [WsEvent.reservationCancelled
          (Reserva.to_dict (request_cancellation db rid uid).db { r with estado := "CANCELLED" })
          (plano_of_space db r.espacioId)]) ∧
    (r.userId = some uid → r.estado = "RESERVED" →
      estado_of (request_cancellation db rid uid).db rid = some "CANCELLATION_REQUESTED" ∧
      (request_cancellation db rid uid).error = none ∧
      (request_cancellation db rid uid).events =
        [WsEvent.cancellationRequested
          (Reserva.to_dict (request_cancellation db rid uid).db
            { r with estado := "CANCELLATION_REQUESTED" })
          (plano_of_space db r.espacioId)]) ∧
    (r.userId = some uid → r.estado ≠ "PENDING" → r.estado ≠ "RESERVED" →
      request_cancellation db rid uid =
        { reserva := none, error := some "InvalidState", db := db, events := [] }) := by
  refine ⟨?_, ?_, ?_, ?_⟩
  · intro hne
    simp [request_cancellation, hfind, bne_iff_ne, hne]
  · intro hown hpend
    have hmf := find?_modifyFirst (p := fun x : Reserva => x.id == rid)
      (f := fun x => { x with estado := "CANCELLED" }) (fun a ha => ha) hfind
    refine ⟨?_, ?_, ?_⟩
    · simp [request_cancellation, hfind, hown, hpend, estado_of, hmf]
    · simp [request_cancellation, hfind, hown, hpend]
    · simp [request_cancellation, hfind, hown, hpend]
  · intro hown hres
    have hmf := find?_modifyFirst (p := fun x : Reserva => x.id == rid)
      (f := fun x => { x with estado := "CANCELLATION_REQUESTED" }) (fun a ha => ha) hfind
    refine ⟨?_, ?_, ?_⟩
    · simp [request_cancellation, hfind, hown, hres, estado_of, hmf]
    · simp [request_cancellation, hfind, hown, hres]
    · simp [request_cancellation, hfind, hown, hres]
  · intro hown hnp hnr
    simp [request_cancellation, hfind, hown, beq_iff_eq, hnp, hnr]

/-- C2 (witness): the owner of a `RESERVED` reservation requests cancellation
and the reservation moves to `CANCELLATION_REQUESTED`. -/
theorem request_cancellation_spec_behavior_witness :
    estado_of (request_cancellation dbReservedOwner "r1" "u1").db "r1" =
      some "CANCELLATION_REQUESTED" :=
  ((request_cancellation_spec_behavior dbReservedOwner "r1" "u1"
    { id := "r1", estado := "RESERVED", asignee := some "Alice", userId := some "u1",
      espacioId := "s1", expiresAt := none } rfl).2.2.1 rfl rfl).1

/-- C4: `process_expired_reservation` re-reads the persisted state: on a
reservation that is no longer `PENDING` it changes nothing and emits nothing
(idempotent under stale or repeated notifications); on a still-`PENDING`
reservation it transitions to `EXPIRED` and emits `reservation_expired`. -/
theorem process_expired_noop_unless_pending
    (db : DB) (rid : String) (r : Reserva)
    (hfind : db.reservas.find? (fun x => x.id == rid) = some r) :
    (r.estado ≠ "PENDING" → process_expired_reservation db rid = (db, [])) ∧
    (r.estado = "PENDING" →
      estado_of (process_expired_reservation db rid).1 rid = some "EXPIRED" ∧
      (process_expired_reservation db rid).2 =
        [WsEvent.reservationExpired
          (Reserva.to_dict (process_expired_reservation db rid).1 { r with estado := "EXPIRED" })
          (plano_of_space db r.espacioId)]) := by
  constructor
  · intro hne
    simp [process_expired_reservation, hfind, bne_iff_ne, hne]
  · intro hp
    have hmf := find?_modifyFirst (p := fun x : Reserva => x.id == rid)
      (f := fun x => { x with estado := "EXPIRED" }) (fun a ha => ha) hfind
    constructor
    · simp [process_expired_reservation, hfind, hp, estado_of, hmf]
    · simp [process_expired_reservation, hfind, hp]

/-- C4 (witness): a stale expiry notification for an already cancelled
reservation is a no-op. -/
theorem process_expired_noop_unless_pending_witness :
    process_expired_reservation dbCancelled "r1" = (dbCancelled, []) :=
  (process_expired_noop_unless_pending dbCancelled "r1"
    { id := "r1", estado := "CANCELLED", asignee := none, userId := none,
      espacioId := "s1", expiresAt := none } rfl).1 (by decide)

/-- C5: `create_reservation` — missing space fails with the not-found message;
an existing `PENDING`-or-`RESERVED` reservation fails with a conflict message
distinguishing a pending hold from a confirmed reservation; otherwise a
`PENDING` row with `expires_at = None` is appended, the Redis key space is
untouched (no TTL entry registered), and `reservation_created` is emitted only
in runs whose final state contains the committed row. -/
theorem create_reservation_behavior
    (db : DB) (spaceId : String) (userId asignee : Option String) (newId : String)
    (emitOk : Bool) :
    (db.spaces.find? (fun s => s.id == spaceId) = none →
      create_reservation db spaceId userId asignee newId emitOk =
        { reserva := none, error := some "Espacio no encontrado", db := db, events := [] }) ∧
    (∀ sp e, db.spaces.find? (fun s => s.id == spaceId) = some sp →
      db.reservas.find? (fun r => r.espacioId == spaceId && estado_activo r) = some e →
      create_reservation db spaceId userId asignee newId emitOk =
        { reserva := none,
          error := some (if e.estado == "PENDING" then
              "El espacio ya tiene una reserva pendiente de confirmación"
            else "El espacio ya está reservado"),
          db := db, events := [] } ∧
      "El espacio ya tiene una reserva pendiente de confirmación" ≠
        "El espacio ya está reservado") ∧
    (∀ sp, db.spaces.find? (fun s => s.id == spaceId) = some sp →
      db.reservas.find? (fun r => r.espacioId == spaceId && estado_activo r) = none →
      (create_reservation db spaceId userId asignee newId emitOk).db.reservas =
        db.reservas ++
          [{ id := newId, estado := "PENDING", asignee := asignee, userId := userId,
             espacioId := spaceId, expiresAt := none }] ∧
      (create_reservation db spaceId userId asignee newId emitOk).db.store = db.store ∧
      (emitOk = true →
        (create_reservation db spaceId userId asignee newId emitOk).error = none ∧
        (create_reservation db spaceId userId asignee newId emitOk).events =
          [WsEvent.reservationCreated
            (Reserva.to_dict (create_reservation db spaceId userId asignee newId emitOk).db
              { id := newId, estado := "PENDING", asignee := asignee, userId := userId,
                espacioId := spaceId, expiresAt := none })
            sp.planoId]) ∧
      (emitOk = false →
        (create_reservation db spaceId userId asignee newId emitOk).events = [])) := by
  refine ⟨?_, ?_, ?_⟩
  · intro hspace
    simp [create_reservation, hspace]
  · intro sp e hspace hex
    constructor
    · cases hpe : e.estado == "PENDING" <;>
        simp [create_reservation, hspace, hex, hpe]
    · decide
  · intro sp hspace hex
    refine ⟨?_, ?_, ?_, ?_⟩
    · cases emitOk <;> simp [create_reservation, hspace, hex]
    · cases emitOk <;> simp [create_reservation, hspace, hex]
    · rintro rfl
      constructor <;> simp [create_reservation, hspace, hex]
    · rintro rfl
      simp [create_reservation, hspace, hex]

/-- C5 (witness): creating on a free space appends the `PENDING` row with no
expiry timestamp. -/
theorem create_reservation_behavior_witness :
    (create_reservation dbEmptySpace "s1" (some "u1") (some "Alice") "r1" true).db.reservas =
      dbEmptySpace.reservas ++
        [{ id := "r1", estado := "PENDING", asignee := some "Alice", userId := some "u1",
           espacioId := "s1", expiresAt := none }] :=
  ((create_reservation_behavior dbEmptySpace "s1" (some "u1") (some "Alice") "r1" true).2.2
    { id := "s1", name := "Stand 1", planoId := some "p1", active := true } rfl rfl).1

/-- C6 (amended): `refresh_reservation_ttl` always fails with the
invalid-state error on a non-`PENDING` reservation, changing nothing; on a
`PENDING` reservation whose Redis hold entry exists it overwrites the entry
with `ttl_seconds or 30`, persists `expires_at = now + ttl` and emits
`reservation_updated`; when the entry is absent (redis `EXPIRE` returns
false) it fails with the TTL error and changes nothing. -/
theorem refresh_ttl_behavior
    (db : DB) (rid : String) (ttlSeconds : Option Int) (now : Int) (r : Reserva)
    (hfind : db.reservas.find? (fun x => x.id == rid) = some r) :
    (r.estado ≠ "PENDING" →
      refresh_reservation_ttl db rid ttlSeconds now =
        { reserva := none, error := some "Solo se puede renovar TTL de reservas pendientes",
          db := db, events := [] }) ∧
    (r.estado = "PENDING" → store_has db.store (reservation_key rid) = true →
      (refresh_reservation_ttl db rid ttlSeconds now).error = none ∧
      expires_of (refresh_reservation_ttl db rid ttlSeconds now).db rid =
        some (some (now + refresh_ttl_value ttlSeconds)) ∧
      (refresh_reservation_ttl db rid ttlSeconds now).db.store =
        store_set_ttl db.store (reservation_key rid) (refresh_ttl_value ttlSeconds) ∧
      (refresh_reservation_ttl db rid ttlSeconds now).events =
        [WsEvent.reservationUpdated
          (Reserva.to_dict (refresh_reservation_ttl db rid ttlSeconds now).db
            { r with expiresAt := some (now + refresh_ttl_value ttlSeconds) })
          (plano_of_space db r.espacioId)] ∧
      refresh_ttl_value none = PENDING_TTL_SECONDS) ∧
    (r.estado = "PENDING" → store_has db.store (reservation_key rid) = false →
      refresh_reservation_ttl db rid ttlSeconds now =
        { reserva := none, error := some "No se pudo renovar el TTL", db := db,
          events := [] }) := by
  refine ⟨?_, ?_, ?_⟩
  · intro hne
    simp [refresh_reservation_ttl, hfind, bne_iff_ne, hne]
  · intro hp hkey
    have hmf := find?_modifyFirst (p := fun x : Reserva => x.id == rid)
      (f := fun x => { x with expiresAt := some (now + refresh_ttl_value ttlSeconds) })
      (fun a ha => ha) hfind
    refine ⟨?_, ?_, ?_, ?_, ?_⟩
    · simp [refresh_reservation_ttl, hfind, hp, hkey]
    · simp [refresh_reservation_ttl, hfind, hp, hkey, expires_of, hmf]
    · simp [refresh_reservation_ttl, hfind, hp, hkey]
    · simp [refresh_reservation_ttl, hfind, hp, hkey]
    · rfl
  · intro hp hkey
    simp [refresh_reservation_ttl, hfind, hp, hkey]

/-- C6 (witness): refreshing a pending hold whose Redis entry exists sets
`expires_at = now + 30` under the default TTL. -/
theorem refresh_ttl_behavior_witness :
    expires_of (refresh_reservation_ttl dbPendingWithKey "r1" none 1000).db "r1" =
      some (some 1030) :=
  ((refresh_ttl_behavior dbPendingWithKey "r1" none 1000
    { id := "r1", estado := "PENDING", asignee := some "Alice", userId := some "u1",
      espacioId := "s1", expiresAt := none } rfl).2.1 rfl rfl).2.1

/-- C7 (amended): when the broadcast step of `create_reservation` raises after
the commit, the committed insert survives (the new `PENDING` row is in the
final state and no rollback removes it) and no event is delivered, but the
exception is returned to the caller as the command error instead of being
swallowed. -/
theorem broadcast_failure_preserves_commit
    (db : DB) (spaceId : String) (userId asignee : Option String) (newId : String)
    (sp : Space)
    (hspace : db.spaces.find? (fun s => s.id == spaceId) = some sp)
    (hex : db.reservas.find? (fun r => r.espacioId == spaceId && estado_activo r) = none) :
    (create_reservation db spaceId userId asignee newId false).error.isSome = true ∧
    (create_reservation db spaceId userId asignee newId false).reserva = none ∧
    (create_reservation db spaceId userId asignee newId false).db.reservas =
      db.reservas ++
        [{ id := newId, estado := "PENDING", asignee := asignee, userId := userId,
           espacioId := spaceId, expiresAt := none }] ∧
    (create_reservation db spaceId userId asignee newId false).events = [] := by
  refine ⟨?_, ?_, ?_, ?_⟩ <;> simp [create_reservation, hspace, hex]

/-- C7 (witness): the commit-survives-broadcast-failure property on a concrete
store. -/
theorem broadcast_failure_preserves_commit_witness :
    (create_reservation dbEmptySpace "s1" (some "u1") none "r9" false).db.reservas =
      dbEmptySpace.reservas ++
        [{ id := "r9", estado := "PENDING", asignee := none, userId := some "u1",
           espacioId := "s1", expiresAt := none }] :=
  (broadcast_failure_preserves_commit dbEmptySpace "s1" (some "u1") none "r9"
    { id := "s1", name := "Stand 1", planoId := some "p1", active := true } rfl rfl).2.2.1

/-- C8: the service never consults the space's `active` flag — on a blocked
space (`active = False`) with no active reservation, `POST /api/reservas`
succeeds with 201 and appends a `PENDING` hold, while
`POST /spaces/<space_id>/reservar` rejects the very same space with the
blocked-stand error before calling the service, leaving everything
unchanged. -/
theorem create_reservation_ignores_active_flag
    (db : DB) (spaceId uid uname newId : String) (sp : Space) (prof : UserProfile)
    (hspace : db.spaces.find? (fun s => s.id == spaceId) = some sp)
    (hblocked : sp.active = false)
    (hex : db.reservas.find? (fun r => r.espacioId == spaceId && estado_activo r) = none)
    (huid : uid ≠ "")
    (hprof : db.profiles.find? (fun p => p.userId == uid) = some prof)
    (hcomplete : prof.is_complete = true) :
    (api_create_reservation db (some { id := some uid, name := some uname })
        (some spaceId) none newId true).status = 201 ∧
    (api_create_reservation db (some { id := some uid, name := some uname })
        (some spaceId) none newId true).db.reservas =
      db.reservas ++
        [{ id := newId, estado := "PENDING", asignee := some uname, userId := some uid,
           espacioId := spaceId, expiresAt := none }] ∧
    reservar_space db spaceId (some { id := some uid, name := some uname })
        none none newId true =
      { status := 400, error := some "El stand está bloqueado", body := none, db := db,
        events := [] } := by
  have huidb : (uid == "") = false := beq_eq_false_iff_ne.mpr huid
  refine ⟨?_, ?_, ?_⟩
  · simp [api_create_reservation, huidb, hprof, hcomplete, create_reservation, hspace, hex]
  · simp [api_create_reservation, huidb, hprof, hcomplete, create_reservation, hspace, hex]
  · simp [reservar_space, hspace, hblocked]

/-- C8 (witness): the two entry points disagree on the same blocked space. -/
theorem create_reservation_ignores_active_flag_witness :
    (api_create_reservation dbBlockedSpace
        (some { id := some "u1", name := some "Alice" }) (some "s1") none "r1" true).status =
      201 ∧
    (reservar_space dbBlockedSpace "s1" (some { id := some "u1", name := some "Alice" })
        none none "r1" true).status = 400 := by
  have h := create_reservation_ignores_active_flag dbBlockedSpace "s1" "u1" "Alice" "r1"
    { id := "s1", name := "Stand 1", planoId := some "p1", active := false }
    { userId := "u1", email := some "u1@mail.com", phone := none, linkedin := none,
      company := some "Acme", position := none }
    rfl rfl rfl (by decide) rfl (by decide)
  exact ⟨h.1, by rw [h.2.2]⟩

/-- C9: for a `RESERVED` reservation with a non-empty `user_id` whose owner
has a stored profile, `to_dict` embeds the owner's company, linkedin and email
as `client_profile`; the unauthenticated `GET /api/reservas/<id>` handler
returns exactly this serialization with 200; and a `reservation_updated`
broadcast of it reaches every connected client, authenticated or anonymous. -/
theorem reserved_to_dict_leaks_profile
    (db : DB) (rid u : String) (r : Reserva) (p : UserProfile)
    (hfind : db.reservas.find? (fun x => x.id == rid) = some r)
    (hres : r.estado = "RESERVED") (huser : r.userId = some u) (hu : u ≠ "")
    (hprof : db.profiles.find? (fun q => q.userId == u) = some p) :
    (Reserva.to_dict db r).clientProfile =
      some { company := p.company, linkedin := p.linkedin, email := p.email } ∧
    get_reservation db rid =
      { status := 200, error := none, body := some (Reserva.to_dict db r), db := db,
        events := [] } ∧
    (∀ (clients : List WsClient) (c : WsClient) (pid : Option String), c ∈ clients →
      (c.sid, WsEvent.reservationUpdated (Reserva.to_dict db r) pid) ∈
        broadcast_to_all clients (WsEvent.reservationUpdated (Reserva.to_dict db r) pid)) := by
  have hub : (u == "") = false := beq_eq_false_iff_ne.mpr hu
  refine ⟨?_, ?_, ?_⟩
  · simp [Reserva.to_dict, hres, huser, hub, hprof]
  · simp [get_reservation, hfind]
  · intro clients c pid hc
    exact List.mem_map_of_mem (fun x => (x.sid, _)) hc

/-- C9 (witness): the profile of `u1` is embedded and delivered to an
anonymous client. -/
theorem reserved_to_dict_leaks_profile_witness :
    (Reserva.to_dict dbReservedWithProfile
        { id := "r1", estado := "RESERVED", asignee := some "Alice", userId := some "u1",
          espacioId := "s1", expiresAt := none }).clientProfile =
      some { company := some "Acme", linkedin := some "linkedin.com/in/u1",
             email := some "u1@mail.com" } ∧
    ("anon",
      WsEvent.reservationUpdated
        (Reserva.to_dict dbReservedWithProfile
          { id := "r1", estado := "RESERVED", asignee := some "Alice", userId := some "u1",
            espacioId := "s1", expiresAt := none }) (some "p1")) ∈
      broadcast_to_all [{ sid := "admin", authenticated := true },
        { sid := "anon", authenticated := false }]
        (WsEvent.reservationUpdated
          (Reserva.to_dict dbReservedWithProfile
            { id := "r1", estado := "RESERVED", asignee := some "Alice", userId := some "u1",
              espacioId := "s1", expiresAt := none }) (some "p1")) := by
  have h := reserved_to_dict_leaks_profile dbReservedWithProfile "r1" "u1"
    { id := "r1", estado := "RESERVED", asignee := some "Alice", userId := some "u1",
      espacioId := "s1", expiresAt := none }
    { userId := "u1", email := some "u1@mail.com", phone := none,
      linkedin := some "linkedin.com/in/u1", company := some "Acme", position := none }
    rfl rfl rfl (by decide) rfl
  refine ⟨h.1, ?_⟩
  exact h.2.2 _ { sid := "anon", authenticated := false } (some "p1") (by simp)

/-- C10: `DELETE /spaces/<space_id>/reserva` never reads the requester and
never checks a role: its outcome is identical for every authenticated caller;
it deletes the first reservation row of the space outright — whatever its
state, including terminal ones — shrinking the table by one without
transitioning any row, and then emits `reservation_cancelled` carrying the
deleted row's serialization. -/
theorem cancelar_reserva_deletes_any_state
    (db : DB) (spaceId : String) (r : Reserva)
    (hfind : db.reservas.find? (fun x => x.espacioId == spaceId) = some r) :
    (∀ u1 u2, cancelar_reserva db spaceId u1 = cancelar_reserva db spaceId u2) ∧
    (∀ u, (cancelar_reserva db spaceId u).status = 200 ∧
      (cancelar_reserva db spaceId u).db.reservas =
        removeFirst (fun x => x.espacioId == spaceId) db.reservas ∧
      (cancelar_reserva db spaceId u).db.reservas.length + 1 = db.reservas.length ∧
      (∀ x ∈ (cancelar_reserva db spaceId u).db.reservas, x ∈ db.reservas) ∧
      (cancelar_reserva db spaceId u).events =
        [WsEvent.reservationCancelled (Reserva.to_dict db r) (plano_of_space db spaceId)]) := by
  constructor
  · intro u1 u2; rfl
  · intro u
    refine ⟨?_, ?_, ?_, ?_, ?_⟩
    · simp [cancelar_reserva, hfind]
    · simp [cancelar_reserva, hfind]
    · simp only [cancelar_reserva, hfind]
      exact length_removeFirst_of_find? hfind
    · simp only [cancelar_reserva, hfind]
      intro x hx
      exact mem_of_mem_removeFirst hx
    · simp [cancelar_reserva, hfind]

/-- C10 (witness): an arbitrary authenticated user deletes an `EXPIRED`
reservation through the space-level route. -/
theorem cancelar_reserva_deletes_any_state_witness :
    (cancelar_reserva dbExpired "s1" "intruder").status = 200 ∧
    (cancelar_reserva dbExpired "s1" "intruder").db.reservas.length + 1 =
      dbExpired.reservas.length := by
  have h := (cancelar_reserva_deletes_any_state dbExpired "s1"
    { id := "r1", estado := "EXPIRED", asignee := some "Alice", userId := some "u1",
      espacioId := "s1", expiresAt := none } rfl).2 "intruder"
  exact ⟨h.1, h.2.2.1⟩
